import Mathlib

/-!
# Verification of the mousepad backend cart/order core

Shallow embedding of the cart and order services of the mousepad backend:

* the email-owner, reject-inline cart service
  (`src/routes/cart.js` together with `src/models/CartItem.js`);
* the userId-variant order service
  (`src/routes/order.js` / its userId twin, with the `Order` model and
  the Brevo email service).

Documents are modelled as total records: a request payload carries every
top-level field of the schema (optional sub-objects are `Option`s), numbers
are exact rationals (`ℚ`) in place of IEEE floats, and the MongoDB
collection is a list of records in insertion order.  `findOne` /
`findOneAndUpdate` / `findOneAndDelete` act on the first matching record,
`create` enforces the schema's `unique: true` index on `id`, and
`find().sort({createdAt: -1})` is insertion sort by descending `createdAt`.
-/

/-- RGB sub-settings of a cart configuration (`configuration.rgb`). -/
structure RgbSettings where
  mode : Option String
  color : Option String
  brightness : Option ℚ
  animationSpeed : Option ℚ
deriving Repr, DecidableEq

/-- Image adjustment numbers (`imageSettings.adjustments`). -/
structure Adjustments where
  brightness : Option ℚ
  contrast : Option ℚ
  saturation : Option ℚ
  blur : Option ℚ
  sharpen : Option ℚ
  gamma : Option ℚ
deriving Repr, DecidableEq

/-- A 2-D position (`imageSettings.position`). -/
structure ImagePos where
  x : Option ℚ
  y : Option ℚ
deriving Repr, DecidableEq

/-- A crop rectangle (`imageSettings.crop`). -/
structure CropRect where
  x : Option ℚ
  y : Option ℚ
  width : Option ℚ
  height : Option ℚ
deriving Repr, DecidableEq

/-- `configuration.imageSettings` of a cart payload, from the CartItem
schema: three embedded-image fields plus the five geometric/filter
fields that `sanitizeCartPayload` keeps. -/
structure ImageSettings where
  uploadedImage : Option String
  editedImage : Option String
  originalImage : Option String
  zoom : Option ℚ
  position : Option ImagePos
  adjustments : Option Adjustments
  filter : Option String
  crop : Option CropRect
deriving Repr, DecidableEq

/-- `configuration` of a cart payload (full configuration kept for
reconstruction, per the CartItem schema).  `textElements`,
`imageTextOverlays`, `selectedTemplate` and `appliedOverlays` are opaque
blobs at this level of abstraction. -/
structure Configuration where
  mousepadType : Option String
  mousepadSize : Option String
  thickness : Option String
  rgb : Option RgbSettings
  imageSettings : Option ImageSettings
  textElements : List String
  imageTextOverlays : List String
  selectedTemplate : Option String
  appliedOverlays : List String
  logoFile : Option String
  uploadedImages : Option (List String)
deriving Repr, DecidableEq

/-- `specs` of a cart payload.  The schema requires `type`, `size` and
`thickness`; the optional rgb/text/overlay sub-fields are elided as they
are never inspected by the handlers under verification. -/
structure Specs where
  type : String
  size : String
  thickness : String
deriving Repr, DecidableEq

/-- A cart request body / stored CartItem document (email-owner variant,
`src/models/CartItem.js`).  String image fields use `none` for an
absent/empty (falsy) value and `some s` for a non-empty string. -/
structure CartPayload where
  userEmail : String
  id : String
  name : String
  quantity : Nat
  price : ℚ
  currency : String
  image : Option String
  finalImage : Option String
  originalImageUrl : Option String
  specs : Option Specs
  configuration : Option Configuration
deriving Repr, DecidableEq

/-- Character-list version of `startsWith` (first argument: the pattern).
`String.startsWith` itself is built on opaque string primitives that do
not reduce in the kernel; this equivalent runs on the underlying
character lists. -/
def listStartsWith : List Char → List Char → Bool
  | [], _ => true
  | _ :: _, [] => false
  | p :: ps, c :: cs => p == c && listStartsWith ps cs

/-- The JS `value.startsWith('data:')` inline-data check. -/
def isInlineData (s : String) : Bool :=
  listStartsWith "data:".data s.data

/-- `ensureHostedImage(value, field, allowMissing)` from
`src/routes/cart.js`: a missing value is allowed only when
`allowMissing`; a present value must not carry inline (`data:`) image
data.  (The JS non-string type check is subsumed by the model's types.) -/
def ensureHostedImage (value : Option String) (field : String)
    (allowMissing : Bool) : Except String (Option String) :=
  match value with
  | none =>
    if allowMissing then .ok none
    else .error (field ++ " is required")
  | some s =>
    if isInlineData s then
      .error (field ++ " must be uploaded before saving")
    else
      .ok (some s)

/-- The reduction of `configuration.imageSettings` performed by
`sanitizeCartPayload`: keep exactly `zoom, position, adjustments, filter,
crop` (destructuring drops the three embedded-image fields). -/
def reduceImageSettings (s : ImageSettings) : ImageSettings :=
  { uploadedImage := none
    editedImage := none
    originalImage := none
    zoom := s.zoom
    position := s.position
    adjustments := s.adjustments
    filter := s.filter
    crop := s.crop }

/-- The configuration stripping of `sanitizeCartPayload`: reduce
`imageSettings` when present and delete `uploadedImages` and `logoFile`. -/
def stripConfiguration (c : Configuration) : Configuration :=
  { c with
    imageSettings := c.imageSettings.map reduceImageSettings
    uploadedImages := none
    logoFile := none }

/-- `sanitizeCartPayload(payload, {partial})` from `src/routes/cart.js`
(`patchMode` models the JS `partial` option).  Truthy image fields are
checked against the inline-data prefix; in full (non-patch) mode every
image field is additionally required to be present; then the
configuration is stripped of embedded-image fields. -/
def sanitizeCartPayload (payload : CartPayload) (patchMode : Bool) :
    Except String CartPayload := do
  let image ← if payload.image.isSome then
      ensureHostedImage payload.image "image" patchMode
    else pure payload.image
  let finalImage ← if payload.finalImage.isSome then
      ensureHostedImage payload.finalImage "finalImage" patchMode
    else pure payload.finalImage
  let originalImageUrl ← if payload.originalImageUrl.isSome then
      ensureHostedImage payload.originalImageUrl "originalImageUrl" patchMode
    else pure payload.originalImageUrl
  let image ← if patchMode then pure image
    else ensureHostedImage image "image" false
  let finalImage ← if patchMode then pure finalImage
    else ensureHostedImage finalImage "finalImage" false
  let originalImageUrl ← if patchMode then pure originalImageUrl
    else ensureHostedImage originalImageUrl "originalImageUrl" false
  pure { payload with
    image := image
    finalImage := finalImage
    originalImageUrl := originalImageUrl
    configuration := payload.configuration.map stripConfiguration }

/-- A persisted CartItem document: the payload fields plus the
server-assigned `createdAt` timestamp (the `updatedAt` timestamp is
elided — no handler under verification reads it). -/
structure CartRecord where
  doc : CartPayload
  createdAt : Nat
deriving Repr, DecidableEq

/-- The CartItem collection, in insertion order. -/
abbrev CartStore := List CartRecord

/-- The mongoose schema validation of `src/models/CartItem.js` run by
`create`: required (non-empty) strings, `quantity ≥ 1`, `price ≥ 0`,
the `currency` enum, required image fields, and the required
`specs.type/size/thickness` with the `type` enum. -/
def mongooseValidCartItem (p : CartPayload) : Bool :=
  p.userEmail != "" && p.id != "" && p.name != "" &&
  decide (1 ≤ p.quantity) && decide (0 ≤ p.price) &&
  (p.currency == "USD" || p.currency == "SGD") &&
  p.image.isSome && p.finalImage.isSome && p.originalImageUrl.isSome &&
  (match p.specs with
   | none => false
   | some s =>
     (s.type == "normal" || s.type == "rgb") && s.size != "" && s.thickness != "")

/-- `CartItem.addToCart` = `this.create(cartItemData)`: schema validation,
then the `unique: true` index on `id` (a duplicate external id anywhere in
the collection makes the insert throw a duplicate-key error), then append. -/
def addToCart (st : CartStore) (p : CartPayload) (now : Nat) :
    Except String (CartRecord × CartStore) :=
  if !mongooseValidCartItem p then
    .error "CartItem validation failed"
  else if st.any (fun r => r.doc.id == p.id) then
    .error "E11000 duplicate key error"
  else
    let newRecord : CartRecord := { doc := p, createdAt := now }
    .ok (newRecord, st ++ [newRecord])

/-- The `{id, userEmail}` MongoDB query used by the cart statics. -/
def sameCartIdentity (id userEmail : String) (r : CartRecord) : Bool :=
  r.doc.id == id && r.doc.userEmail == userEmail

/-- `CartItem.updateCartItem(id, userEmail, updates)` =
`findOneAndUpdate({id, userEmail}, {...updates, updatedAt}, {new: true})`:
replace the fields of the first matching document with the update payload
(the handler always supplies every top-level field) and return it. -/
def updateCartItem : CartStore → String → String → CartPayload →
    Option CartRecord × CartStore
  | [], _, _, _ => (none, [])
  | r :: rs, id, userEmail, updates =>
    if sameCartIdentity id userEmail r then
      let r' : CartRecord := { r with doc := updates }
      (some r', r' :: rs)
    else
      let (found, rest) := updateCartItem rs id userEmail updates
      (found, r :: rest)

/-- `CartItem.removeFromCart(id, userEmail)` =
`findOneAndDelete({id, userEmail})`: delete and return the first matching
document. -/
def removeFromCart : CartStore → String → String →
    Option CartRecord × CartStore
  | [], _, _ => (none, [])
  | r :: rs, id, userEmail =>
    if sameCartIdentity id userEmail r then
      (some r, rs)
    else
      let (found, rest) := removeFromCart rs id userEmail
      (found, r :: rest)

/-- `CartItem.getUserCart(userEmail)` =
`find({userEmail}).sort({createdAt: -1})`. -/
def getUserCart (st : CartStore) (userEmail : String) : List CartRecord :=
  List.insertionSort (fun a b => b.createdAt ≤ a.createdAt)
    (st.filter (fun r => r.doc.userEmail == userEmail))

/-- Outcome of `POST /api/cart` (`router.post('/')` in
`src/routes/cart.js`), tagged with the HTTP status the handler sends. -/
inductive PostCartResult where
  /-- 400: `sanitizeCartPayload` threw. -/
  | badRequest (msg : String)
  /-- 200: existing (id, userEmail) document overwritten. -/
  | updated (item : Option CartRecord)
  /-- 201: new document created. -/
  | created (item : CartRecord)
  /-- 500: storage layer threw (validation / duplicate key). -/
  | serverError
deriving Repr, DecidableEq

/-- The `POST /api/cart` handler: sanitize, look for an existing document
with the same `(id, userEmail)`, and either overwrite it (200) or create
a new one (201); storage-layer throws land in the catch-all 500 with the
store unchanged by the failed create. -/
def postCartHandler (st : CartStore) (body : CartPayload) (now : Nat) :
    PostCartResult × CartStore :=
  match sanitizeCartPayload body false with
  | .error msg => (.badRequest msg, st)
  | .ok processed =>
    match st.find? (sameCartIdentity processed.id processed.userEmail) with
    | some _ =>
      let (item, st') := updateCartItem st processed.id processed.userEmail processed
      (.updated item, st')
    | none =>
      match addToCart st processed now with
      | .ok (item, st') => (.created item, st')
      | .error _ => (.serverError, st)

/-- The image cleanup block of `DELETE /api/cart/:id`: best-effort
`deleteImage` on `finalImage` then `originalImageUrl` of the deleted
document.  The oracle may fail (`Except` error = a thrown rejection). -/
def cleanupImages (deleteImage : String → Except String Bool)
    (doc : CartPayload) : Except String Unit := do
  let _ ← match doc.finalImage with
    | some url => deleteImage url
    | none => pure true
  let _ ← match doc.originalImageUrl with
    | some url => deleteImage url
    | none => pure true
  pure ()

/-- Outcome of `DELETE /api/cart/:id`, tagged with the HTTP status. -/
inductive DeleteCartResult where
  /-- 400: no `userEmail` in the body. -/
  | missingEmail
  /-- 404: no document matches `(id, userEmail)`. -/
  | notFound
  /-- 200: the document was deleted and is returned. -/
  | removed (item : CartRecord)
deriving Repr, DecidableEq

/-- The `DELETE /api/cart/:id` handler: delete the owned document, then
try image cleanup inside a try/catch whose only effect is a logged error
message (the third component); the response and the store never depend on
the cleanup outcome. -/
def deleteCartHandler (st : CartStore) (id userEmail : String)
    (deleteImage : String → Except String Bool) :
    DeleteCartResult × CartStore × Option String :=
  if userEmail == "" then (.missingEmail, st, none)
  else
    match removeFromCart st id userEmail with
    | (none, _) => (.notFound, st, none)
    | (some item, st') =>
      let cleanupLog := match cleanupImages deleteImage item.doc with
        | .ok _ => none
        | .error e => some e
      (.removed item, st', cleanupLog)

/-- The `{itemCount, totalPrice, currency}` summary payload. -/
structure CartSummary where
  itemCount : Nat
  totalPrice : ℚ
  currency : String
deriving Repr, DecidableEq

/-- The `GET /api/cart/summary/:userEmail` handler: fold
`itemCount += quantity` and `totalPrice += price * quantity` over the
listed cart; currency comes from the first listed item, `USD` when the
cart is empty. -/
def getCartSummary (st : CartStore) (userEmail : String) : CartSummary :=
  let cartItems := getUserCart st userEmail
  let acc := cartItems.foldl
    (fun acc r => (acc.1 + r.doc.quantity, acc.2 + r.doc.price * (r.doc.quantity : ℚ)))
    ((0 : Nat), (0 : ℚ))
  { itemCount := acc.1
    totalPrice := acc.2
    currency := match cartItems with
      | [] => "USD"
      | r :: _ => r.doc.currency }

/-!
## Order service (userId deployment variant)

`router.post('/')`, `router.patch('/:_id/payment-status')` of the
userId-variant order routes, over the userId CartItem and Order models
and the Brevo email service.
-/

/-- A persisted CartItem document of the userId variant (denormalized
`mousepadType/mousepadSize/thickness`); `mid` is the MongoDB `_id`. -/
structure OrderCartItem where
  mid : String
  userId : String
  name : String
  quantity : Nat
  price : ℚ
  currency : String
  finalImage : String
  originalImageUrl : String
  mousepadType : String
  mousepadSize : String
  thickness : String
  status : String
deriving Repr, DecidableEq

/-- One entry of the `items` array of a create-order request body.  Besides
the `cartItemId` the caller may supply arbitrary product fields (the
`req…` overrides); the handler must ignore them. -/
structure OrderRequestItem where
  cartItemId : String
  reqName : Option String
  reqQuantity : Option Nat
  reqPrice : Option ℚ
  reqCurrency : Option String
  reqFinalImage : Option String
  reqOriginalImageUrl : Option String
  reqMousepadType : Option String
  reqMousepadSize : Option String
  reqThickness : Option String
deriving Repr, DecidableEq

/-- Shipping address of a create-order request (`country` optional,
defaulted on persist). -/
structure AddressReq where
  street : String
  city : String
  state : String
  zipCode : String
  country : Option String
deriving Repr, DecidableEq

/-- `customerInfo` of a create-order request. -/
structure CustomerInfoReq where
  firstName : String
  lastName : String
  email : String
  phone : String
  address : AddressReq
  additionalNotes : Option String
deriving Repr, DecidableEq

/-- A persisted shipping address (`country` defaulted). -/
structure AddressDoc where
  street : String
  city : String
  state : String
  zipCode : String
  country : String
deriving Repr, DecidableEq

/-- Persisted `customerInfo`. -/
structure CustomerInfoDoc where
  firstName : String
  lastName : String
  email : String
  phone : String
  address : AddressDoc
  additionalNotes : String
deriving Repr, DecidableEq

/-- The create-order request body. -/
structure OrderRequest where
  items : List OrderRequestItem
  subtotal : ℚ
  shipping : Option ℚ
  tax : Option ℚ
  total : ℚ
  currency : Option String
  customerInfo : CustomerInfoReq
deriving Repr, DecidableEq

/-- One entry of a persisted order's `items` snapshot array. -/
structure OrderItemSnapshot where
  cartItemId : String
  name : String
  quantity : Nat
  price : ℚ
  currency : String
  finalImage : String
  originalImageUrl : String
  mousepadType : String
  mousepadSize : String
  thickness : String
deriving Repr, DecidableEq

/-- A persisted Order document of the userId variant. -/
structure OrderDoc where
  mid : String
  userId : String
  items : List OrderItemSnapshot
  subtotal : ℚ
  shipping : ℚ
  tax : ℚ
  total : ℚ
  currency : String
  customerInfo : CustomerInfoDoc
  status : String
  paymentStatus : String
  paymentTransactionId : Option String
deriving Repr, DecidableEq

/-- Approximation of `validator.isEmail` used by the express-validator
chain: non-empty and containing an `@`.  No claim under verification
depends on the exact email grammar. -/
def emailShaped (s : String) : Bool :=
  s != "" && s.data.contains '@'

/-- The express-validator chain of `POST /api/order`: non-empty `items`,
non-empty `cartItemId`s, and the required `customerInfo` fields
(`subtotal`/`total` are numeric by type). -/
def validateOrderRequest (req : OrderRequest) : Bool :=
  decide (1 ≤ req.items.length) &&
  req.items.all (fun it => it.cartItemId != "") &&
  req.customerInfo.firstName != "" &&
  req.customerInfo.lastName != "" &&
  emailShaped req.customerInfo.email &&
  req.customerInfo.phone != "" &&
  req.customerInfo.address.street != "" &&
  req.customerInfo.address.city != "" &&
  req.customerInfo.address.state != "" &&
  req.customerInfo.address.zipCode != ""

/-- `items.map` with a lookup that may come up empty: `some` of the mapped
list when every lookup succeeds, `none` as soon as one fails (the JS
`map` dereferences the failed lookup and throws a TypeError). -/
def mapOption (f : α → Option β) : List α → Option (List β)
  | [] => some []
  | a :: as =>
    match f a, mapOption f as with
    | some b, some bs => some (b :: bs)
    | _, _ => none

/-- One snapshot entry of `orderData.items`: the `cartItemId` from the
request and every product field from the live CartItem document. -/
def snapshotOfCartItem (it : OrderRequestItem) (c : OrderCartItem) :
    OrderItemSnapshot :=
  { cartItemId := it.cartItemId
    name := c.name
    quantity := c.quantity
    price := c.price
    currency := c.currency
    finalImage := c.finalImage
    originalImageUrl := c.originalImageUrl
    mousepadType := c.mousepadType
    mousepadSize := c.mousepadSize
    thickness := c.thickness }

/-- Persisting `customerInfo`: copy the request fields, default `country`
to `'United States'` and `additionalNotes` to `''`. -/
def persistCustomerInfo (ci : CustomerInfoReq) : CustomerInfoDoc :=
  { firstName := ci.firstName
    lastName := ci.lastName
    email := ci.email
    phone := ci.phone
    address :=
      { street := ci.address.street
        city := ci.address.city
        state := ci.address.state
        zipCode := ci.address.zipCode
        country := ci.address.country.getD "United States" }
    additionalNotes := ci.additionalNotes.getD "" }

/-- The `const cartItems = await CartItem.find({_id: {$in: cartItemIds},
userId})` lookup: the caller-owned cart documents among the requested ids. -/
def resolveCartItems (cartDb : List OrderCartItem) (userId : String)
    (cartItemIds : List String) : List OrderCartItem :=
  cartDb.filter (fun c => cartItemIds.contains c.mid && c.userId == userId)

/-- The `orderData.items` mapping: for each requested line find the
resolved CartItem and snapshot it (`none` when a lookup comes up empty,
in which case the JS map throws). -/
def snapshotItems (cartItems : List OrderCartItem)
    (items : List OrderRequestItem) : Option (List OrderItemSnapshot) :=
  mapOption (fun it =>
    (cartItems.find? (fun c => c.mid == it.cartItemId)).map
      (snapshotOfCartItem it)) items

/-- The persisted `orderData`: snapshot items, request pricing rollups
(`|| 0` defaults), persisted customer info, `status = paymentStatus =
'pending'`. -/
def buildOrderDoc (userId : String) (req : OrderRequest) (newMid : String)
    (snaps : List OrderItemSnapshot) : OrderDoc :=
  { mid := newMid
    userId := userId
    items := snaps
    subtotal := req.subtotal
    shipping := req.shipping.getD 0
    tax := req.tax.getD 0
    total := req.total
    currency := req.currency.getD "USD"
    customerInfo := persistCustomerInfo req.customerInfo
    status := "pending"
    paymentStatus := "pending"
    paymentTransactionId := none }

/-- Outcome of `POST /api/order`, tagged with the HTTP status. -/
inductive CreateOrderResult where
  /-- 400: the express-validator chain failed. -/
  | validationFailed
  /-- 400: `'Some cart items do not belong to you or do not exist'`. -/
  | notOwned
  /-- 201: the order was created and is returned. -/
  | created (o : OrderDoc)
  /-- 500: the items mapping threw. -/
  | serverError
deriving Repr, DecidableEq

/-- The `POST /api/order` handler: validate, resolve the requested
`cartItemId`s against the caller's own cart items, reject unless the
resolved count equals the requested count, then snapshot the resolved
documents into a new order with `status = paymentStatus = 'pending'`. -/
def createOrderHandler (cartDb : List OrderCartItem) (orders : List OrderDoc)
    (userId : String) (req : OrderRequest) (newMid : String) :
    CreateOrderResult × List OrderDoc :=
  if !validateOrderRequest req then (.validationFailed, orders)
  else if (resolveCartItems cartDb userId
        (req.items.map (fun it => it.cartItemId))).length
      != (req.items.map (fun it => it.cartItemId)).length then
    (.notOwned, orders)
  else
    match snapshotItems
        (resolveCartItems cartDb userId (req.items.map (fun it => it.cartItemId)))
        req.items with
    | none => (.serverError, orders)
    | some snaps =>
      (.created (buildOrderDoc userId req newMid snaps),
       orders ++ [buildOrderDoc userId req newMid snaps])

/-- The Brevo configuration (`src/config/email.js`): `apiKey` is `''`
when the environment variable is unset. -/
structure EmailConfig where
  enabled : Bool
  apiKey : String
  senderEmail : String
  senderName : String
  adminEmail : String
deriving Repr, DecidableEq

/-- The `{success, messageId?, message?, error?}` result value of the
email service. -/
structure EmailResult where
  success : Bool
  messageId : Option String
  message : Option String
  error : Option String
deriving Repr, DecidableEq

/-- `sendOrderConfirmationEmail(order)` from the Brevo email service.
`template` is the outcome of reading the HTML template (`none` = load
failure) and `sendOutcome` the outcome of the Brevo API call (`.ok
messageId` or a thrown error); the surrounding try/catch converts every
throw into a `success: false` result value, so the function is total. -/
def sendOrderConfirmationEmail (cfg : EmailConfig) (template : Option String)
    (sendOutcome : Except String String) (order : OrderDoc) : EmailResult :=
  if !cfg.enabled then
    { success := false, messageId := none
      message := some "Email service is disabled", error := none }
  else if cfg.apiKey == "" then
    { success := false, messageId := none
      message := some "Email API key not configured", error := none }
  else
    match template with
    | none =>
      { success := false, messageId := none, message := none
        error := some "Failed to load email template" }
    | some _ =>
      match sendOutcome with
      | .error e =>
        { success := false, messageId := none, message := none
          error := some (if e == "" then "Failed to send email" else e) }
      | .ok messageId =>
        { success := true, messageId := some messageId
          message := some "Email sent successfully", error := none }

/-- Payment statuses accepted by the `isIn` validator of
`PATCH /api/order/:_id/payment-status`. -/
def allowedPaymentStatuses : List String :=
  ["pending", "processing", "completed", "failed", "refunded"]

/-- Outcome of `PATCH /api/order/:_id/payment-status`, tagged with the
HTTP status. -/
inductive PayStatusResult where
  /-- 400: `status` not in the accepted list. -/
  | invalidStatus
  /-- 404: no order with this `_id`. -/
  | notFound
  /-- 403: the order belongs to another user. -/
  | forbidden
  /-- 200: the updated order is returned. -/
  | ok (o : OrderDoc)
deriving Repr, DecidableEq

/-- The `PATCH /api/order/:_id/payment-status` handler: validate the
status, find the owned order, set `paymentStatus` (deriving `status`:
`completed → processing`, `failed → paymentFailed`, otherwise untouched),
then fire the confirmation email without awaiting it — `emailOutcome` is
the settled outcome of that dispatch, whose rejection is only logged
(third component) and never reaches the response. -/
def updatePaymentStatusHandler (orders : List OrderDoc)
    (mid userId status : String) (paymentTransactionId : Option String)
    (emailOutcome : Except String EmailResult) :
    PayStatusResult × List OrderDoc × Option String :=
  if !(allowedPaymentStatuses.contains status) then
    (.invalidStatus, orders, none)
  else
    match orders.find? (fun o => o.mid == mid) with
    | none => (.notFound, orders, none)
    | some order =>
      if order.userId != userId then (.forbidden, orders, none)
      else
        let newStatus :=
          if status == "completed" then "processing"
          else if status == "failed" then "paymentFailed"
          else order.status
        let updated : OrderDoc :=
          { order with
            paymentStatus := status
            status := newStatus
            paymentTransactionId :=
              match paymentTransactionId with
              | some t => some t
              | none => order.paymentTransactionId }
        let orders' := orders.map (fun o => if o.mid == mid then updated else o)
        let emailLog :=
          match emailOutcome with
          | .ok _ => none
          | .error e => some e
        (.ok updated, orders', emailLog)

/-!
## Supporting lemmas
-/

lemma sanitizeCartPayload_ok_eq (body : CartPayload) (mode : Bool)
    (p' : CartPayload) (h : sanitizeCartPayload body mode = .ok p') :
    p' = { body with configuration := body.configuration.map stripConfiguration } := by
  rcases hI : body.image with _ | sI <;>
  rcases hF : body.finalImage with _ | sF <;>
  rcases hO : body.originalImageUrl with _ | sO <;>
  cases mode <;>
  simp only [sanitizeCartPayload, ensureHostedImage, hI, hF, hO, Bind.bind, Except.bind,
    Pure.pure, Except.pure, Option.isSome_some, Option.isSome_none, if_true, if_false,
    Bool.false_eq_true, ite_false, ite_true] at h <;>
  (try cases hsI : isInlineData sI <;> rw [hsI] at h) <;>
  (try cases hsF : isInlineData sF <;> rw [hsF] at h) <;>
  (try cases hsO : isInlineData sO <;> rw [hsO] at h) <;>
  simp_all

lemma sanitizeCartPayload_full_ok_iff (body p' : CartPayload) :
    sanitizeCartPayload body false = .ok p' ↔
      ((∃ sI, body.image = some sI ∧ isInlineData sI = false) ∧
       (∃ sF, body.finalImage = some sF ∧ isInlineData sF = false) ∧
       (∃ sO, body.originalImageUrl = some sO ∧ isInlineData sO = false) ∧
       p' = { body with configuration := body.configuration.map stripConfiguration }) := by
  rcases hI : body.image with _ | sI <;>
  rcases hF : body.finalImage with _ | sF <;>
  rcases hO : body.originalImageUrl with _ | sO <;>
  simp only [sanitizeCartPayload, ensureHostedImage, hI, hF, hO, Bind.bind, Except.bind,
    Pure.pure, Except.pure, Option.isSome_some, Option.isSome_none, if_true, if_false,
    Bool.false_eq_true, ite_false, ite_true] <;>
  (try cases hsI : isInlineData sI) <;>
  (try cases hsF : isInlineData sF) <;>
  (try cases hsO : isInlineData sO) <;>
  simp_all <;>
  (try exact eq_comm)

lemma sanitizeCartPayload_full_inline_error (body : CartPayload)
    (h : (∃ s, body.image = some s ∧ isInlineData s = true) ∨
         (∃ s, body.finalImage = some s ∧ isInlineData s = true) ∨
         (∃ s, body.originalImageUrl = some s ∧ isInlineData s = true)) :
    ∃ field, (field = "image" ∨ field = "finalImage" ∨ field = "originalImageUrl") ∧
      sanitizeCartPayload body false =
        .error (field ++ " must be uploaded before saving") := by
  rcases hI : body.image with _ | sI <;>
  rcases hF : body.finalImage with _ | sF <;>
  rcases hO : body.originalImageUrl with _ | sO <;>
  simp only [hI, hF, hO, Option.some.injEq, reduceCtorEq, false_and, exists_const,
    exists_eq_left, or_false, false_or] at h <;>
  simp only [sanitizeCartPayload, ensureHostedImage, hI, hF, hO, Bind.bind, Except.bind,
    Pure.pure, Except.pure, Option.isSome_some, Option.isSome_none, if_true, if_false,
    Bool.false_eq_true, ite_false, ite_true] <;>
  (try cases hsI : isInlineData sI) <;>
  (try cases hsF : isInlineData sF) <;>
  (try cases hsO : isInlineData sO) <;>
  simp_all

lemma updateCartItem_some (st : CartStore) (id userEmail : String)
    (u : CartPayload) (r' : CartRecord) (st' : CartStore)
    (h : updateCartItem st id userEmail u = (some r', st')) :
    r'.doc = u ∧
    ∃ pre r post, st = pre ++ r :: post ∧
      st' = pre ++ { r with doc := u } :: post ∧
      sameCartIdentity id userEmail r = true ∧
      ∀ x ∈ pre, sameCartIdentity id userEmail x = false := by
  induction st generalizing st' with
  | nil => simp [updateCartItem] at h
  | cons a as ih =>
    by_cases ha : sameCartIdentity id userEmail a
    · simp only [updateCartItem, ha, if_true, Prod.mk.injEq, Option.some.injEq] at h
      obtain ⟨h1, h2⟩ := h
      refine ⟨by simp [← h1], [], a, as, rfl, ?_, ha, by simp⟩
      simp [← h2, ← h1]
    · simp only [updateCartItem, ha, if_false, Bool.false_eq_true] at h
      rcases hrec : updateCartItem as id userEmail u with ⟨found, rest⟩
      rw [hrec] at h
      simp only [Prod.mk.injEq] at h
      obtain ⟨h1, h2⟩ := h
      subst h1
      obtain ⟨hdoc, pre, r, post, hst, hst', hr, hpre⟩ := ih rest hrec
      refine ⟨hdoc, a :: pre, r, post, by simp [hst], by simp [← h2, hst'], hr, ?_⟩
      intro x hx
      rcases List.mem_cons.mp hx with hx | hx
      · simpa [hx] using ha
      · exact hpre x hx

lemma updateCartItem_none (st : CartStore) (id userEmail : String)
    (u : CartPayload) (st' : CartStore)
    (h : updateCartItem st id userEmail u = (none, st')) :
    st' = st ∧ ∀ x ∈ st, sameCartIdentity id userEmail x = false := by
  induction st generalizing st' with
  | nil =>
    simp only [updateCartItem, Prod.mk.injEq] at h
    exact ⟨h.2.symm, by simp⟩
  | cons a as ih =>
    by_cases ha : sameCartIdentity id userEmail a
    · simp [updateCartItem, ha] at h
    · simp only [updateCartItem, ha, if_false, Bool.false_eq_true] at h
      rcases hrec : updateCartItem as id userEmail u with ⟨found, rest⟩
      rw [hrec] at h
      simp only [Prod.mk.injEq] at h
      obtain ⟨h1, h2⟩ := h
      subst h1
      obtain ⟨hsteq, hall⟩ := ih rest hrec
      subst hsteq
      refine ⟨by simp [← h2], ?_⟩
      intro x hx
      rcases List.mem_cons.mp hx with hx | hx
      · simpa [hx] using ha
      · exact hall x hx

lemma removeFromCart_some (st : CartStore) (id userEmail : String)
    (r' : CartRecord) (st' : CartStore)
    (h : removeFromCart st id userEmail = (some r', st')) :
    sameCartIdentity id userEmail r' = true ∧
    ∃ pre post, st = pre ++ r' :: post ∧ st' = pre ++ post ∧
      ∀ x ∈ pre, sameCartIdentity id userEmail x = false := by
  induction st generalizing st' with
  | nil => simp [removeFromCart] at h
  | cons a as ih =>
    by_cases ha : sameCartIdentity id userEmail a
    · simp only [removeFromCart, ha, if_true, Prod.mk.injEq, Option.some.injEq] at h
      obtain ⟨h1, h2⟩ := h
      subst h1
      exact ⟨ha, [], as, rfl, by simp [← h2], by simp⟩
    · simp only [removeFromCart, ha, if_false, Bool.false_eq_true] at h
      rcases hrec : removeFromCart as id userEmail with ⟨found, rest⟩
      rw [hrec] at h
      simp only [Prod.mk.injEq] at h
      obtain ⟨h1, h2⟩ := h
      subst h1
      obtain ⟨hr, pre, post, hst, hst', hpre⟩ := ih rest hrec
      refine ⟨hr, a :: pre, post, by simp [hst], by simp [← h2, hst'], ?_⟩
      intro x hx
      rcases List.mem_cons.mp hx with hx | hx
      · simpa [hx] using ha
      · exact hpre x hx

lemma addToCart_ok (st : CartStore) (p : CartPayload) (now : Nat)
    (r : CartRecord) (st' : CartStore)
    (h : addToCart st p now = .ok (r, st')) :
    r = { doc := p, createdAt := now } ∧
    st' = st ++ [{ doc := p, createdAt := now }] ∧
    mongooseValidCartItem p = true ∧
    ∀ x ∈ st, (x.doc.id == p.id) = false := by
  by_cases hval : mongooseValidCartItem p
  · by_cases hdup : st.any (fun x => x.doc.id == p.id)
    · simp [addToCart, hval, hdup] at h
    · simp only [addToCart, hval, Bool.not_true, Bool.false_eq_true, if_false, hdup,
        Except.ok.injEq, Prod.mk.injEq] at h
      refine ⟨h.1.symm, h.2.symm, hval, ?_⟩
      intro x hx
      by_contra hcontra
      exact hdup (List.any_eq_true.mpr ⟨x, hx, by simpa using hcontra⟩)
  · simp [addToCart, hval] at h

lemma sameCartIdentity_iff (id userEmail : String) (r : CartRecord) :
    sameCartIdentity id userEmail r = true ↔
      r.doc.id = id ∧ r.doc.userEmail = userEmail := by
  simp [sameCartIdentity]

lemma countP_sameCartIdentity_le_one (st : CartStore) (id userEmail : String)
    (hids : (st.map (fun r => r.doc.id)).Nodup) :
    st.countP (sameCartIdentity id userEmail) ≤ 1 := by
  induction st with
  | nil => simp [List.countP, List.countP.go]
  | cons a as ih =>
    simp only [List.map_cons, List.nodup_cons] at hids
    obtain ⟨hnotmem, htail⟩ := hids
    rw [List.countP_cons]
    by_cases ha : sameCartIdentity id userEmail a
    · have hzero : as.countP (sameCartIdentity id userEmail) = 0 := by
        rw [List.countP_eq_zero]
        intro x hx hmatch
        obtain ⟨hxid, _⟩ := (sameCartIdentity_iff id userEmail x).mp hmatch
        obtain ⟨haid, _⟩ := (sameCartIdentity_iff id userEmail a).mp ha
        exact hnotmem (List.mem_map.mpr ⟨x, hx, hxid.trans haid.symm⟩)
      simp [ha, hzero]
    · simpa [ha] using ih htail

lemma getUserCart_perm (st : CartStore) (e : String) :
    (getUserCart st e).Perm (st.filter (fun r => r.doc.userEmail == e)) :=
  List.perm_insertionSort _ _

lemma mem_getUserCart (st : CartStore) (e : String) (r : CartRecord) :
    r ∈ getUserCart st e ↔ r ∈ st ∧ r.doc.userEmail = e := by
  rw [(getUserCart_perm st e).mem_iff, List.mem_filter]
  simp

lemma getUserCart_countP (st : CartStore) (e : String) (q : CartRecord → Bool) :
    (getUserCart st e).countP q =
      (st.filter (fun r => r.doc.userEmail == e)).countP q :=
  (getUserCart_perm st e).countP_eq q

lemma postCartHandler_created (st : CartStore) (body : CartPayload) (now : Nat)
    (item : CartRecord) (st' : CartStore)
    (h : postCartHandler st body now = (.created item, st')) :
    ∃ p', sanitizeCartPayload body false = .ok p' ∧
      st.find? (sameCartIdentity p'.id p'.userEmail) = none ∧
      item = { doc := p', createdAt := now } ∧
      st' = st ++ [{ doc := p', createdAt := now }] ∧
      mongooseValidCartItem p' = true ∧
      ∀ x ∈ st, (x.doc.id == p'.id) = false := by
  rcases hsan : sanitizeCartPayload body false with msg | p'
  · simp [postCartHandler, hsan] at h
  · rcases hfind : st.find? (sameCartIdentity p'.id p'.userEmail) with _ | r₀
    · rcases hadd : addToCart st p' now with e | rs
      · simp [postCartHandler, hsan, hfind, hadd] at h
      · obtain ⟨r, st₂⟩ := rs
        simp only [postCartHandler, hsan, hfind, hadd, Prod.mk.injEq,
          PostCartResult.created.injEq] at h
        obtain ⟨h1, h2⟩ := h
        obtain ⟨hr, hst, hval, hnone⟩ := addToCart_ok st p' now r st₂ hadd
        exact ⟨p', rfl, hfind, h1 ▸ hr, h2 ▸ hst, hval, hnone⟩
    · rcases hupd : updateCartItem st p'.id p'.userEmail p' with ⟨found, st₂⟩
      simp [postCartHandler, hsan, hfind, hupd] at h

lemma postCartHandler_updated (st : CartStore) (body : CartPayload) (now : Nat)
    (item : CartRecord) (st' : CartStore)
    (h : postCartHandler st body now = (.updated (some item), st')) :
    ∃ p', sanitizeCartPayload body false = .ok p' ∧
      (∃ r₀, st.find? (sameCartIdentity p'.id p'.userEmail) = some r₀) ∧
      updateCartItem st p'.id p'.userEmail p' = (some item, st') := by
  rcases hsan : sanitizeCartPayload body false with msg | p'
  · simp [postCartHandler, hsan] at h
  · rcases hfind : st.find? (sameCartIdentity p'.id p'.userEmail) with _ | r₀
    · rcases hadd : addToCart st p' now with e | rs
      · simp [postCartHandler, hsan, hfind, hadd] at h
      · obtain ⟨r, st₂⟩ := rs
        simp [postCartHandler, hsan, hfind, hadd] at h
    · rcases hupd : updateCartItem st p'.id p'.userEmail p' with ⟨found, st₂⟩
      simp only [postCartHandler, hsan, hfind, hupd, Prod.mk.injEq,
        PostCartResult.updated.injEq] at h
      obtain ⟨h1, h2⟩ := h
      rcases found with _ | f
      · simp at h1
      · simp only [Option.some.injEq] at h1
        exact ⟨p', rfl, ⟨r₀, hfind⟩, by rw [hupd, h1, h2]⟩

/-- A well-formed specification block used by concrete witnesses. -/
def sampleSpecs : Specs :=
  { type := "normal", size := "400x900", thickness := "3mm" }

/-- A well-formed, fully hosted cart payload used by concrete witnesses. -/
def samplePayload : CartPayload :=
  { userEmail := "a@b.c"
    id := "a1"
    name := "Custom Mousepad"
    quantity := 2
    price := 10
    currency := "USD"
    image := some "https://res.cloudinary.com/x/image/upload/v1/m/i.jpg"
    finalImage := some "https://res.cloudinary.com/x/image/upload/v1/m/f.jpg"
    originalImageUrl := some "https://res.cloudinary.com/x/image/upload/v1/m/o.jpg"
    specs := some sampleSpecs
    configuration := none }

/-!
## Claims
-/

/-- C4: under the reject-inline strategy, a cart payload whose `image`,
`finalImage` or `originalImageUrl` begins with the inline-data prefix
`data:` is rejected by `POST /api/cart` with
`"<field> must be uploaded before saving"` and nothing is persisted;
consequently every CartItem the handler accepts (created or updated) has
hosted `finalImage` and `originalImageUrl` values that never begin with
the inline-data prefix. -/
theorem claim_C4 (st : CartStore) (body : CartPayload) (now : Nat) :
    ((∃ s, (body.image = some s ∨ body.finalImage = some s ∨
            body.originalImageUrl = some s) ∧ isInlineData s = true) →
      ∃ field, (field = "image" ∨ field = "finalImage" ∨
                field = "originalImageUrl") ∧
        postCartHandler st body now =
          (.badRequest (field ++ " must be uploaded before saving"), st)) ∧
    (∀ item st',
      (postCartHandler st body now = (.created item, st') ∨
       postCartHandler st body now = (.updated (some item), st')) →
      (∃ s, item.doc.finalImage = some s ∧ isInlineData s = false) ∧
      (∃ s, item.doc.originalImageUrl = some s ∧ isInlineData s = false)) := by
  constructor
  · rintro ⟨s, hfield, hinline⟩
    have herr := sanitizeCartPayload_full_inline_error body (by
      rcases hfield with h | h | h
      · exact Or.inl ⟨s, h, hinline⟩
      · exact Or.inr (Or.inl ⟨s, h, hinline⟩)
      · exact Or.inr (Or.inr ⟨s, h, hinline⟩))
    obtain ⟨field, hf, hsan⟩ := herr
    exact ⟨field, hf, by simp [postCartHandler, hsan]⟩
  · rintro item st' (h | h)
    · obtain ⟨p', hsan, -, hitem, -, -, -⟩ := postCartHandler_created st body now item st' h
      obtain ⟨-, ⟨sF, hF, hsF⟩, ⟨sO, hO, hsO⟩, hp'⟩ :=
        (sanitizeCartPayload_full_ok_iff body p').mp hsan
      subst hitem
      subst hp'
      exact ⟨⟨sF, by simpa using hF, hsF⟩, ⟨sO, by simpa using hO, hsO⟩⟩
    · obtain ⟨p', hsan, -, hupd⟩ := postCartHandler_updated st body now item st' h
      obtain ⟨hdoc, -⟩ := updateCartItem_some st p'.id p'.userEmail p' item st' hupd
      obtain ⟨-, ⟨sF, hF, hsF⟩, ⟨sO, hO, hsO⟩, hp'⟩ :=
        (sanitizeCartPayload_full_ok_iff body p').mp hsan
      subst hp'
      rw [hdoc]
      exact ⟨⟨sF, by simpa using hF, hsF⟩, ⟨sO, by simpa using hO, hsO⟩⟩

/-- Witness for C4 at concrete inputs: a `data:` `finalImage` is rejected
on the empty store, and an accepted hosted payload yields a record whose
image fields carry no inline data. -/
theorem claim_C4_witness :
    (∃ field, (field = "image" ∨ field = "finalImage" ∨
               field = "originalImageUrl") ∧
      postCartHandler []
          { samplePayload with finalImage := some "data:image/png;base64,xxx" } 0 =
        (.badRequest (field ++ " must be uploaded before saving"), [])) ∧
    ((∃ s, ({ doc := samplePayload, createdAt := 0 } : CartRecord).doc.finalImage =
        some s ∧ isInlineData s = false) ∧
     (∃ s, ({ doc := samplePayload, createdAt := 0 } : CartRecord).doc.originalImageUrl =
        some s ∧ isInlineData s = false)) :=
  ⟨(claim_C4 [] { samplePayload with finalImage := some "data:image/png;base64,xxx" } 0).1
      ⟨"data:image/png;base64,xxx", Or.inr (Or.inl rfl), by decide⟩,
   (claim_C4 [] samplePayload 0).2
      { doc := samplePayload, createdAt := 0 }
      [{ doc := samplePayload, createdAt := 0 }]
      (Or.inl (by rfl))⟩

/-- C10: `sanitizeCartPayload` always strips `configuration.uploadedImages`
and `configuration.logoFile` and reduces `configuration.imageSettings` to
exactly `{zoom, position, adjustments, filter, crop}`; every cart item the
POST handler persists is free of these embedded-image configuration
fields, and the remaining payload fields pass through unchanged. -/
theorem claim_C10 (st : CartStore) (body : CartPayload) (now : Nat) :
    (∀ (mode : Bool) (p' : CartPayload), sanitizeCartPayload body mode = .ok p' →
      (∀ cfg, p'.configuration = some cfg →
        cfg.uploadedImages = none ∧ cfg.logoFile = none ∧
        ∀ s, cfg.imageSettings = some s →
          s.uploadedImage = none ∧ s.editedImage = none ∧ s.originalImage = none) ∧
      (∀ bcfg, body.configuration = some bcfg →
        p'.configuration = some (stripConfiguration bcfg) ∧
        (stripConfiguration bcfg).mousepadType = bcfg.mousepadType ∧
        (stripConfiguration bcfg).mousepadSize = bcfg.mousepadSize ∧
        (stripConfiguration bcfg).thickness = bcfg.thickness ∧
        (stripConfiguration bcfg).rgb = bcfg.rgb ∧
        (stripConfiguration bcfg).textElements = bcfg.textElements ∧
        (stripConfiguration bcfg).imageTextOverlays = bcfg.imageTextOverlays ∧
        (stripConfiguration bcfg).selectedTemplate = bcfg.selectedTemplate ∧
        (stripConfiguration bcfg).appliedOverlays = bcfg.appliedOverlays ∧
        ∀ bs, bcfg.imageSettings = some bs →
          ∃ s, (stripConfiguration bcfg).imageSettings = some s ∧
            s.zoom = bs.zoom ∧ s.position = bs.position ∧
            s.adjustments = bs.adjustments ∧ s.filter = bs.filter ∧
            s.crop = bs.crop) ∧
      p'.userEmail = body.userEmail ∧ p'.id = body.id ∧ p'.name = body.name ∧
      p'.quantity = body.quantity ∧ p'.price = body.price ∧
      p'.currency = body.currency ∧ p'.specs = body.specs ∧
      p'.image = body.image ∧ p'.finalImage = body.finalImage ∧
      p'.originalImageUrl = body.originalImageUrl) ∧
    (∀ item st',
      (postCartHandler st body now = (.created item, st') ∨
       postCartHandler st body now = (.updated (some item), st')) →
      ∀ cfg, item.doc.configuration = some cfg →
        cfg.uploadedImages = none ∧ cfg.logoFile = none ∧
        ∀ s, cfg.imageSettings = some s →
          s.uploadedImage = none ∧ s.editedImage = none ∧ s.originalImage = none) := by
  have hstrip : ∀ cfg : Configuration,
      (stripConfiguration cfg).uploadedImages = none ∧
      (stripConfiguration cfg).logoFile = none ∧
      ∀ s, (stripConfiguration cfg).imageSettings = some s →
        s.uploadedImage = none ∧ s.editedImage = none ∧ s.originalImage = none := by
    intro cfg
    refine ⟨rfl, rfl, ?_⟩
    intro s hs
    rcases hbs : cfg.imageSettings with _ | bs
    · simp [stripConfiguration, hbs] at hs
    · simp only [stripConfiguration, hbs, Option.map_some', Option.map_some, Option.some.injEq] at hs
      subst hs
      exact ⟨rfl, rfl, rfl⟩
  have hConfShape : ∀ (p' : CartPayload),
      p' = { body with configuration := body.configuration.map stripConfiguration } →
      ∀ cfg, p'.configuration = some cfg →
        cfg.uploadedImages = none ∧ cfg.logoFile = none ∧
        ∀ s, cfg.imageSettings = some s →
          s.uploadedImage = none ∧ s.editedImage = none ∧ s.originalImage = none := by
    intro p' hp' cfg hcfg
    subst hp'
    rcases hbcfg : body.configuration with _ | bcfg
    · simp [hbcfg] at hcfg
    · simp only [hbcfg, Option.map_some', Option.map_some, Option.some.injEq] at hcfg
      subst hcfg
      exact hstrip bcfg
  constructor
  · intro mode p' hsan
    have hp' := sanitizeCartPayload_ok_eq body mode p' hsan
    refine ⟨hConfShape p' hp', ?_, ?_⟩
    · intro bcfg hbcfg
      refine ⟨by rw [hp']; simp [hbcfg], rfl, rfl, rfl, rfl, rfl, rfl, rfl, rfl, ?_⟩
      intro bs hbs
      exact ⟨reduceImageSettings bs, by simp [stripConfiguration, hbs], rfl, rfl, rfl, rfl, rfl⟩
    · rw [hp']
      exact ⟨rfl, rfl, rfl, rfl, rfl, rfl, rfl, rfl, rfl, rfl⟩
  · rintro item st' (h | h)
    · obtain ⟨p', hsan, -, hitem, -, -, -⟩ := postCartHandler_created st body now item st' h
      have hp' := sanitizeCartPayload_ok_eq body false p' hsan
      subst hitem
      exact hConfShape p' hp'
    · obtain ⟨p', hsan, -, hupd⟩ := postCartHandler_updated st body now item st' h
      obtain ⟨hdoc, -⟩ := updateCartItem_some st p'.id p'.userEmail p' item st' hupd
      have hp' := sanitizeCartPayload_ok_eq body false p' hsan
      rw [hdoc]
      exact hConfShape p' hp'

/-- An `imageSettings` block carrying embedded image data, used by
concrete witnesses. -/
def sampleImageSettings : ImageSettings :=
  { uploadedImage := some "data:image/png;base64,uuu"
    editedImage := some "data:image/png;base64,eee"
    originalImage := some "data:image/png;base64,ooo"
    zoom := some 2
    position := some { x := some 1, y := some 2 }
    adjustments := none
    filter := some "none"
    crop := none }

/-- A configuration carrying embedded images, a logo file and an uploaded
images array, used by concrete witnesses. -/
def sampleConfiguration : Configuration :=
  { mousepadType := some "normal"
    mousepadSize := some "400x900"
    thickness := some "3mm"
    rgb := none
    imageSettings := some sampleImageSettings
    textElements := []
    imageTextOverlays := []
    selectedTemplate := none
    appliedOverlays := []
    logoFile := some "logo.png"
    uploadedImages := some ["u1.png"] }

/-- `samplePayload` with the embedded-image configuration attached. -/
def sampleBodyWithConfig : CartPayload :=
  { samplePayload with configuration := some sampleConfiguration }

/-- Witness for C10: the handler accepts `sampleBodyWithConfig` and the
persisted configuration has no embedded-image fields. -/
theorem claim_C10_witness :
    (stripConfiguration sampleConfiguration).uploadedImages = none ∧
    (stripConfiguration sampleConfiguration).logoFile = none ∧
    ((reduceImageSettings sampleImageSettings).uploadedImage = none ∧
     (reduceImageSettings sampleImageSettings).editedImage = none ∧
     (reduceImageSettings sampleImageSettings).originalImage = none) :=
  let h := (claim_C10 [] sampleBodyWithConfig 0).2
    { doc := { sampleBodyWithConfig with
        configuration := some (stripConfiguration sampleConfiguration) }
      createdAt := 0 }
    [{ doc := { sampleBodyWithConfig with
        configuration := some (stripConfiguration sampleConfiguration) }
       createdAt := 0 }]
    (Or.inl (by rfl))
    (stripConfiguration sampleConfiguration) rfl
  ⟨h.1, h.2.1, h.2.2 (reduceImageSettings sampleImageSettings) rfl⟩

lemma summary_foldl (l : List CartRecord) (a : Nat) (b : ℚ) :
    l.foldl
      (fun acc r => (acc.1 + r.doc.quantity, acc.2 + r.doc.price * (r.doc.quantity : ℚ)))
      (a, b) =
    (a + (l.map (fun r => r.doc.quantity)).sum,
     b + (l.map (fun r => r.doc.price * (r.doc.quantity : ℚ))).sum) := by
  induction l generalizing a b with
  | nil => simp
  | cons x xs ih =>
    simp only [List.foldl_cons, List.map_cons, List.sum_cons, ih, Prod.mk.injEq]
    exact ⟨by omega, by ring⟩

lemma summary_foldl_zero (l : List CartRecord) :
    l.foldl
      (fun acc r => (acc.1 + r.doc.quantity, acc.2 + r.doc.price * (r.doc.quantity : ℚ)))
      0 =
    ((l.map (fun r => r.doc.quantity)).sum,
     (l.map (fun r => r.doc.price * (r.doc.quantity : ℚ))).sum) := by
  simpa using summary_foldl l 0 0

/-- C7: `getCartSummary` returns `itemCount = Σ quantity` and
`totalPrice = Σ price·quantity` over the owner's cart items, with the
currency of the first listed item; an empty cart yields
`{itemCount: 0, totalPrice: 0, currency: "USD"}`. -/
theorem claim_C7 (st : CartStore) (userEmail : String) :
    (getCartSummary st userEmail).itemCount =
      ((st.filter (fun r => r.doc.userEmail == userEmail)).map
        (fun r => r.doc.quantity)).sum ∧
    (getCartSummary st userEmail).totalPrice =
      ((st.filter (fun r => r.doc.userEmail == userEmail)).map
        (fun r => r.doc.price * (r.doc.quantity : ℚ))).sum ∧
    (getCartSummary st userEmail).currency =
      (((getUserCart st userEmail).head?).map (fun r => r.doc.currency)).getD "USD" ∧
    (st.filter (fun r => r.doc.userEmail == userEmail) = [] →
      getCartSummary st userEmail =
        { itemCount := 0, totalPrice := 0, currency := "USD" }) := by
  have hperm := getUserCart_perm st userEmail
  have hquantity :
      ((getUserCart st userEmail).map (fun r => r.doc.quantity)).sum =
      ((st.filter (fun r => r.doc.userEmail == userEmail)).map
        (fun r => r.doc.quantity)).sum :=
    (hperm.map (fun r => r.doc.quantity)).sum_eq
  have hprice :
      ((getUserCart st userEmail).map
        (fun r => r.doc.price * (r.doc.quantity : ℚ))).sum =
      ((st.filter (fun r => r.doc.userEmail == userEmail)).map
        (fun r => r.doc.price * (r.doc.quantity : ℚ))).sum :=
    (hperm.map (fun r => r.doc.price * (r.doc.quantity : ℚ))).sum_eq
  refine ⟨?_, ?_, ?_, ?_⟩
  · simp [getCartSummary, summary_foldl_zero, hquantity]
  · simp [getCartSummary, summary_foldl_zero, hprice]
  · rcases hcart : getUserCart st userEmail with _ | ⟨r, rest⟩ <;>
      simp [getCartSummary, hcart]
  · intro hempty
    have hnil : getUserCart st userEmail = [] := by
      simp [getUserCart, hempty]
    simp [getCartSummary, hnil, List.foldl]

/-- Witness for C7: the empty store yields the empty-cart summary. -/
theorem claim_C7_witness :
    getCartSummary [] "a@b.c" = { itemCount := 0, totalPrice := 0, currency := "USD" } :=
  (claim_C7 [] "a@b.c").2.2.2 rfl

/-- C5: for an existing order owned by the requester,
`PATCH /:_id/payment-status` with `completed` derives order status
`processing`, with `failed` derives `paymentFailed`, and with any other
accepted payment status leaves the order's `status` unchanged while
always setting `paymentStatus` to the requested value. -/
theorem claim_C5 (orders : List OrderDoc) (mid userId status : String)
    (txn : Option String) (emailOutcome : Except String EmailResult)
    (order : OrderDoc)
    (hfind : orders.find? (fun o => o.mid == mid) = some order)
    (howner : order.userId = userId)
    (hstatus : status = "pending" ∨ status = "processing" ∨ status = "completed" ∨
               status = "failed" ∨ status = "refunded") :
    ∃ updated orders' log,
      updatePaymentStatusHandler orders mid userId status txn emailOutcome =
        (.ok updated, orders', log) ∧
      updated.paymentStatus = status ∧
      (status = "completed" → updated.status = "processing") ∧
      (status = "failed" → updated.status = "paymentFailed") ∧
      ((status = "pending" ∨ status = "processing" ∨ status = "refunded") →
        updated.status = order.status) := by
  have hcontains : allowedPaymentStatuses.contains status = true := by
    rcases hstatus with h | h | h | h | h <;> subst h <;> decide
  have howner' : (order.userId != userId) = false := by
    simp [howner]
  have hrun : updatePaymentStatusHandler orders mid userId status txn emailOutcome =
      (.ok { order with
          paymentStatus := status
          status := if status == "completed" then "processing"
            else if status == "failed" then "paymentFailed" else order.status
          paymentTransactionId := match txn with
            | some t => some t
            | none => order.paymentTransactionId },
        orders.map (fun o => if o.mid == mid then
          { order with
            paymentStatus := status
            status := if status == "completed" then "processing"
              else if status == "failed" then "paymentFailed" else order.status
            paymentTransactionId := match txn with
              | some t => some t
              | none => order.paymentTransactionId } else o),
        match emailOutcome with
        | .ok _ => none
        | .error e => some e) := by
    simp only [updatePaymentStatusHandler, hcontains, Bool.not_true, Bool.false_eq_true,
      if_false, hfind, howner', if_true]
  refine ⟨_, _, _, hrun, rfl, ?_, ?_, ?_⟩
  · intro h
    subst h
    simp
  · intro h
    subst h
    simp
  · intro h
    have hc : (status == "completed") = false := by
      rcases h with h | h | h <;> subst h <;> decide
    have hf : (status == "failed") = false := by
      rcases h with h | h | h <;> subst h <;> decide
    simp [hc, hf]

/-- A persisted order owned by `u1`, used by concrete witnesses. -/
def sampleOrder : OrderDoc :=
  { mid := "o1"
    userId := "u1"
    items := []
    subtotal := 20
    shipping := 0
    tax := 0
    total := 20
    currency := "USD"
    customerInfo :=
      { firstName := "Jane", lastName := "Doe", email := "jane@x.y", phone := "555"
        address := { street := "1 Main St", city := "Springfield", state := "IL"
                     zipCode := "62701", country := "United States" }
        additionalNotes := "" }
    status := "pending"
    paymentStatus := "pending"
    paymentTransactionId := none }

/-- Witness for C5: completing payment on `sampleOrder` yields an updated
order in `processing` with `paymentStatus = completed`. -/
theorem claim_C5_witness :
    ∃ updated orders' log,
      updatePaymentStatusHandler [sampleOrder] "o1" "u1" "completed" none
          (.ok { success := true, messageId := some "m", message := none, error := none }) =
        (.ok updated, orders', log) ∧
      updated.paymentStatus = "completed" ∧
      ("completed" = "completed" → updated.status = "processing") ∧
      ("completed" = "failed" → updated.status = "paymentFailed") ∧
      (("completed" = "pending" ∨ "completed" = "processing" ∨ "completed" = "refunded") →
        updated.status = sampleOrder.status) :=
  claim_C5 [sampleOrder] "o1" "u1" "completed" none
    (.ok { success := true, messageId := some "m", message := none, error := none })
    sampleOrder (by rfl) rfl (Or.inr (Or.inr (Or.inl rfl)))

/-- C8: the Brevo `sendOrderConfirmationEmail` never throws — it succeeds
exactly when the service is enabled, an API key is configured, the
template loads and the send call succeeds, and returns `success: false`
on every failure path; and the payment-status handler's response and
persisted orders are independent of the notifier outcome. -/
theorem claim_C8 :
    (∀ (cfg : EmailConfig) (template : Option String)
       (sendOutcome : Except String String) (order : OrderDoc),
      ((sendOrderConfirmationEmail cfg template sendOutcome order).success = true ↔
        (cfg.enabled = true ∧ cfg.apiKey ≠ "" ∧ template.isSome = true ∧
         ∃ m, sendOutcome = .ok m))) ∧
    (∀ (orders : List OrderDoc) (mid userId status : String)
       (txn : Option String) (e₁ e₂ : Except String EmailResult),
      (updatePaymentStatusHandler orders mid userId status txn e₁).1 =
        (updatePaymentStatusHandler orders mid userId status txn e₂).1 ∧
      (updatePaymentStatusHandler orders mid userId status txn e₁).2.1 =
        (updatePaymentStatusHandler orders mid userId status txn e₂).2.1) := by
  constructor
  · intro cfg template sendOutcome order
    rcases henabled : cfg.enabled
    · simp [sendOrderConfirmationEmail, henabled]
    · rcases hkey : cfg.apiKey == ""
      · rcases template with _ | t
        · simp [sendOrderConfirmationEmail, henabled, hkey]
        · rcases sendOutcome with e | m <;>
            simp [sendOrderConfirmationEmail, henabled, hkey] <;>
            simp_all
      · simp only [sendOrderConfirmationEmail, henabled, hkey]
        simp_all
  · intro orders mid userId status txn e₁ e₂
    by_cases hmem : status ∈ allowedPaymentStatuses
    · rcases hfind : orders.find? (fun o => o.mid == mid) with _ | order
      · simp [updatePaymentStatusHandler, hmem, hfind]
      · by_cases howner : order.userId = userId <;>
          simp [updatePaymentStatusHandler, hmem, hfind, howner]
    · simp [updatePaymentStatusHandler, hmem]

lemma mapOption_some_forall₂ {α β : Type} (f : α → Option β) (l : List α)
    (bs : List β) (h : mapOption f l = some bs) :
    List.Forall₂ (fun a b => f a = some b) l bs := by
  induction l generalizing bs with
  | nil =>
    simp only [mapOption, Option.some.injEq] at h
    subst h
    exact List.Forall₂.nil
  | cons a as ih =>
    rcases hfa : f a with _ | b
    · simp [mapOption, hfa] at h
    · rcases hrec : mapOption f as with _ | bs'
      · simp [mapOption, hfa, hrec] at h
      · simp only [mapOption, hfa, hrec, Option.some.injEq] at h
        subst h
        exact List.Forall₂.cons hfa (ih bs' hrec)

lemma createOrderHandler_created (cartDb : List OrderCartItem)
    (orders : List OrderDoc) (userId : String) (req : OrderRequest)
    (newMid : String) (o : OrderDoc) (orders' : List OrderDoc)
    (h : createOrderHandler cartDb orders userId req newMid = (.created o, orders')) :
    validateOrderRequest req = true ∧
    orders' = orders ++ [o] ∧
    o.status = "pending" ∧ o.paymentStatus = "pending" ∧
    snapshotItems
      (resolveCartItems cartDb userId (req.items.map (fun it => it.cartItemId)))
      req.items = some o.items := by
  by_cases hval : validateOrderRequest req
  · unfold createOrderHandler at h
    rw [hval] at h
    simp only [Bool.not_true, Bool.false_eq_true, if_false] at h
    by_cases hlen : (resolveCartItems cartDb userId
        (req.items.map (fun it => it.cartItemId))).length =
        (req.items.map (fun it => it.cartItemId)).length
    · have hlenb : ((resolveCartItems cartDb userId
          (req.items.map (fun it => it.cartItemId))).length
          != (req.items.map (fun it => it.cartItemId)).length) = false := by
        simp only [bne_eq_false_iff_eq]
        exact hlen
      rw [hlenb] at h
      simp only [Bool.false_eq_true, if_false] at h
      rcases hmap : snapshotItems
          (resolveCartItems cartDb userId (req.items.map (fun it => it.cartItemId)))
          req.items with _ | snaps
      · rw [hmap] at h
        simp at h
      · rw [hmap] at h
        simp only [Prod.mk.injEq, CreateOrderResult.created.injEq] at h
        obtain ⟨h1, h2⟩ := h
        subst h1
        exact ⟨hval, h2.symm, rfl, rfl, hmap⟩
    · have hlenb : ((resolveCartItems cartDb userId
          (req.items.map (fun it => it.cartItemId))).length
          != (req.items.map (fun it => it.cartItemId)).length) = true := by
        simp only [bne_iff_ne, ne_eq]
        exact hlen
      rw [hlenb] at h
      simp at h
  · have hval' : validateOrderRequest req = false := by simpa using hval
    unfold createOrderHandler at h
    rw [hval'] at h
    simp at h

lemma forall₂_mem_left {α β : Type} {R : α → β → Prop} :
    ∀ {l₁ : List α} {l₂ : List β}, List.Forall₂ R l₁ l₂ →
      ∀ a ∈ l₁, ∃ b, R a b := by
  intro l₁ l₂ h
  induction h with
  | nil => intro a ha; simp at ha
  | cons hR _ ih =>
    intro a ha
    rcases List.mem_cons.mp ha with ha | ha
    · exact ⟨_, ha ▸ hR⟩
    · exact ih a ha

lemma snapshotItems_resolved (cartDb : List OrderCartItem) (userId : String)
    (ids : List String) (items : List OrderRequestItem)
    (snaps : List OrderItemSnapshot)
    (h : snapshotItems (resolveCartItems cartDb userId ids) items = some snaps) :
    List.Forall₂ (fun it snap => ∃ c, c ∈ cartDb ∧ c.userId = userId ∧
      c.mid = it.cartItemId ∧ snap = snapshotOfCartItem it c) items snaps := by
  have hfa := mapOption_some_forall₂ _ _ _ h
  refine hfa.imp ?_
  intro it snap hsnap
  rcases hfind : (resolveCartItems cartDb userId ids).find?
      (fun c => c.mid == it.cartItemId) with _ | c
  · rw [hfind] at hsnap
    simp at hsnap
  · rw [hfind] at hsnap
    simp only [Option.map_some', Option.some.injEq] at hsnap
    have hmem := List.mem_of_find?_eq_some hfind
    have hpred := List.find?_some hfind
    have hmid : c.mid = it.cartItemId := by simpa using hpred
    simp only [resolveCartItems, List.mem_filter, Bool.and_eq_true] at hmem
    obtain ⟨hcdb, -, huser⟩ := hmem
    exact ⟨c, hcdb, by simpa using huser, hmid, hsnap.symm⟩

/-- C2: every item of a successfully created order snapshots `name,
quantity, price, currency, finalImage, originalImageUrl, mousepadType,
mousepadSize, thickness` from the live CartItem record resolved at
creation time; tampered values supplied in the request body for those
fields never appear in the snapshot. -/
theorem claim_C2 (cartDb : List OrderCartItem) (orders : List OrderDoc)
    (userId : String) (req : OrderRequest) (newMid : String)
    (o : OrderDoc) (orders' : List OrderDoc)
    (h : createOrderHandler cartDb orders userId req newMid = (.created o, orders')) :
    List.Forall₂ (fun (it : OrderRequestItem) (snap : OrderItemSnapshot) =>
      ∃ c, c ∈ cartDb ∧ c.userId = userId ∧ c.mid = it.cartItemId ∧
        snap.cartItemId = it.cartItemId ∧
        snap.name = c.name ∧ snap.quantity = c.quantity ∧ snap.price = c.price ∧
        snap.currency = c.currency ∧ snap.finalImage = c.finalImage ∧
        snap.originalImageUrl = c.originalImageUrl ∧
        snap.mousepadType = c.mousepadType ∧ snap.mousepadSize = c.mousepadSize ∧
        snap.thickness = c.thickness ∧
        (∀ v, it.reqPrice = some v → v ≠ c.price → snap.price ≠ v) ∧
        (∀ v, it.reqName = some v → v ≠ c.name → snap.name ≠ v))
      req.items o.items := by
  obtain ⟨-, -, -, -, hmap⟩ :=
    createOrderHandler_created cartDb orders userId req newMid o orders' h
  refine (snapshotItems_resolved cartDb userId _ req.items o.items hmap).imp ?_
  rintro it snap ⟨c, hcdb, huser, hmid, hsnap⟩
  subst hsnap
  exact ⟨c, hcdb, huser, hmid, rfl, rfl, rfl, rfl, rfl, rfl, rfl, rfl, rfl, rfl,
    fun v _ hne heq => hne heq.symm,
    fun v _ hne heq => hne heq.symm⟩

/-- C3: `POST /api/order` rejects the whole request with the
`'do not belong'` validation error and persists nothing whenever the
resolved-owned count differs from the requested count; an order is only
created when every requested `cartItemId` resolves to a CartItem of the
requesting owner, and a rejected request never changes the order
collection. -/
theorem claim_C3 (cartDb : List OrderCartItem) (orders : List OrderDoc)
    (userId : String) (req : OrderRequest) (newMid : String) :
    (validateOrderRequest req = true →
      (resolveCartItems cartDb userId (req.items.map (fun it => it.cartItemId))).length ≠
        (req.items.map (fun it => it.cartItemId)).length →
      createOrderHandler cartDb orders userId req newMid = (.notOwned, orders)) ∧
    (∀ o orders',
      createOrderHandler cartDb orders userId req newMid = (.created o, orders') →
      (∀ it ∈ req.items, ∃ c, c ∈ cartDb ∧ c.mid = it.cartItemId ∧ c.userId = userId) ∧
      orders' = orders ++ [o]) ∧
    (∀ res orders',
      createOrderHandler cartDb orders userId req newMid = (res, orders') →
      (∀ o, res ≠ .created o) → orders' = orders) := by
  refine ⟨?_, ?_, ?_⟩
  · intro hval hlen
    have hlenb : ((resolveCartItems cartDb userId
        (req.items.map (fun it => it.cartItemId))).length
        != (req.items.map (fun it => it.cartItemId)).length) = true := by
      simp only [bne_iff_ne, ne_eq]
      exact hlen
    unfold createOrderHandler
    rw [hval, hlenb]
    rfl
  · intro o orders' h
    obtain ⟨-, horders, -, -, hmap⟩ :=
      createOrderHandler_created cartDb orders userId req newMid o orders' h
    refine ⟨?_, horders⟩
    intro it hit
    obtain ⟨snap, c, hcdb, huser, hmid, -⟩ :=
      forall₂_mem_left (snapshotItems_resolved cartDb userId _ req.items o.items hmap) it hit
    exact ⟨c, hcdb, hmid, huser⟩
  · intro res orders' h hne
    by_cases hval : validateOrderRequest req
    · unfold createOrderHandler at h
      rw [hval] at h
      simp only [Bool.not_true, Bool.false_eq_true, if_false] at h
      by_cases hlen : (resolveCartItems cartDb userId
          (req.items.map (fun it => it.cartItemId))).length =
          (req.items.map (fun it => it.cartItemId)).length
      · have hlenb : ((resolveCartItems cartDb userId
            (req.items.map (fun it => it.cartItemId))).length
            != (req.items.map (fun it => it.cartItemId)).length) = false := by
          simp only [bne_eq_false_iff_eq]
          exact hlen
        rw [hlenb] at h
        simp only [Bool.false_eq_true, if_false] at h
        rcases hmap : snapshotItems
            (resolveCartItems cartDb userId (req.items.map (fun it => it.cartItemId)))
            req.items with _ | snaps
        · rw [hmap] at h
          simp only [Prod.mk.injEq] at h
          exact h.2.symm
        · rw [hmap] at h
          simp only [Prod.mk.injEq] at h
          exact absurd h.1.symm (hne (buildOrderDoc userId req newMid snaps))
      · have hlenb : ((resolveCartItems cartDb userId
            (req.items.map (fun it => it.cartItemId))).length
            != (req.items.map (fun it => it.cartItemId)).length) = true := by
          simp only [bne_iff_ne, ne_eq]
          exact hlen
        rw [hlenb] at h
        simp only [if_true, Prod.mk.injEq] at h
        exact h.2.symm
    · have hval' : validateOrderRequest req = false := by simpa using hval
      unfold createOrderHandler at h
      rw [hval'] at h
      simp only [Bool.not_false, if_true, Prod.mk.injEq] at h
      exact h.2.symm

/-- A caller-owned CartItem document of the userId variant, used by
concrete witnesses. -/
def sampleCartItem : OrderCartItem :=
  { mid := "c1"
    userId := "u1"
    name := "Custom Mousepad"
    quantity := 2
    price := 10
    currency := "USD"
    finalImage := "https://res.cloudinary.com/x/image/upload/v1/m/f.jpg"
    originalImageUrl := "https://res.cloudinary.com/x/image/upload/v1/m/o.jpg"
    mousepadType := "normal"
    mousepadSize := "400x900"
    thickness := "3mm"
    status := "pending" }

/-- A create-order request for `sampleCartItem` whose body also carries a
tampered name and price, used by concrete witnesses. -/
def sampleOrderRequest : OrderRequest :=
  { items := [{ cartItemId := "c1"
                reqName := some "HACKED"
                reqQuantity := none
                reqPrice := some 0
                reqCurrency := none
                reqFinalImage := none
                reqOriginalImageUrl := none
                reqMousepadType := none
                reqMousepadSize := none
                reqThickness := none }]
    subtotal := 20
    shipping := none
    tax := none
    total := 20
    currency := some "USD"
    customerInfo :=
      { firstName := "Jane", lastName := "Doe", email := "jane@x.y", phone := "555"
        address := { street := "1 Main St", city := "Springfield", state := "IL"
                     zipCode := "62701", country := none }
        additionalNotes := none } }

/-- Witness for C2: creating an order for `sampleCartItem` snapshots the
live cart fields, not the tampered request fields. -/
theorem claim_C2_witness :
    List.Forall₂ (fun (it : OrderRequestItem) (snap : OrderItemSnapshot) =>
      ∃ c, c ∈ [sampleCartItem] ∧ c.userId = "u1" ∧ c.mid = it.cartItemId ∧
        snap.cartItemId = it.cartItemId ∧
        snap.name = c.name ∧ snap.quantity = c.quantity ∧ snap.price = c.price ∧
        snap.currency = c.currency ∧ snap.finalImage = c.finalImage ∧
        snap.originalImageUrl = c.originalImageUrl ∧
        snap.mousepadType = c.mousepadType ∧ snap.mousepadSize = c.mousepadSize ∧
        snap.thickness = c.thickness ∧
        (∀ v, it.reqPrice = some v → v ≠ c.price → snap.price ≠ v) ∧
        (∀ v, it.reqName = some v → v ≠ c.name → snap.name ≠ v))
      sampleOrderRequest.items
      (buildOrderDoc "u1" sampleOrderRequest "o1"
        [snapshotOfCartItem
          { cartItemId := "c1"
            reqName := some "HACKED"
            reqQuantity := none
            reqPrice := some 0
            reqCurrency := none
            reqFinalImage := none
            reqOriginalImageUrl := none
            reqMousepadType := none
            reqMousepadSize := none
            reqThickness := none }
          sampleCartItem]).items :=
  claim_C2 [sampleCartItem] [] "u1" sampleOrderRequest "o1"
    (buildOrderDoc "u1" sampleOrderRequest "o1"
      [snapshotOfCartItem
        { cartItemId := "c1"
          reqName := some "HACKED"
          reqQuantity := none
          reqPrice := some 0
          reqCurrency := none
          reqFinalImage := none
          reqOriginalImageUrl := none
          reqMousepadType := none
          reqMousepadSize := none
          reqThickness := none }
        sampleCartItem])
    [buildOrderDoc "u1" sampleOrderRequest "o1"
      [snapshotOfCartItem
        { cartItemId := "c1"
          reqName := some "HACKED"
          reqQuantity := none
          reqPrice := some 0
          reqCurrency := none
          reqFinalImage := none
          reqOriginalImageUrl := none
          reqMousepadType := none
          reqMousepadSize := none
          reqThickness := none }
        sampleCartItem]]
    (by rfl)

/-- Witness for C3: a requester who owns none of the referenced cart
items is rejected with the not-owned error and the order collection is
unchanged. -/
theorem claim_C3_witness :
    createOrderHandler [sampleCartItem] [] "intruder" sampleOrderRequest "o1" =
      (.notOwned, []) :=
  (claim_C3 [sampleCartItem] [] "intruder" sampleOrderRequest "o1").1
    (by rfl) (by decide)

/-- C6: the database delete of `DELETE /api/cart/:id` is committed and the
success response returned regardless of the Media Store cleanup outcome —
the response and resulting store are identical for any `deleteImage`
oracle, including a throwing one — and after a successful delete the
owner's listed cart never contains an item with the removed id. -/
theorem claim_C6 (st : CartStore) (id userEmail : String)
    (hids : (st.map (fun r => r.doc.id)).Nodup)
    (d₁ d₂ : String → Except String Bool) :
    ((deleteCartHandler st id userEmail d₁).1 =
       (deleteCartHandler st id userEmail d₂).1 ∧
     (deleteCartHandler st id userEmail d₁).2.1 =
       (deleteCartHandler st id userEmail d₂).2.1) ∧
    (∀ item st' log,
      deleteCartHandler st id userEmail d₁ = (.removed item, st', log) →
      item.doc.id = id ∧ item.doc.userEmail = userEmail ∧
      st'.countP (sameCartIdentity id userEmail) = 0 ∧
      ∀ r ∈ getUserCart st' userEmail, ¬ r.doc.id = id) := by
  constructor
  · by_cases he : userEmail == ""
    · simp [deleteCartHandler, he]
    · rcases hrem : removeFromCart st id userEmail with ⟨found, rest⟩
      rcases found with _ | item <;>
        simp [deleteCartHandler, he, hrem]
  · intro item st' log h
    by_cases he : userEmail == ""
    · simp [deleteCartHandler, he] at h
    · rcases hrem : removeFromCart st id userEmail with ⟨found, rest⟩
      rcases found with _ | item₀
      · simp [deleteCartHandler, he, hrem] at h
      · simp only [deleteCartHandler, he, Bool.false_eq_true, if_false, hrem,
          Prod.mk.injEq, DeleteCartResult.removed.injEq] at h
        obtain ⟨h1, h2, -⟩ := h
        obtain ⟨hmatch, pre, post, hst, hst', -⟩ :=
          removeFromCart_some st id userEmail item₀ rest hrem
        subst h1
        subst h2
        obtain ⟨hid, hemail⟩ := (sameCartIdentity_iff id userEmail item₀).mp hmatch
        have hnodup' : ((pre ++ item₀ :: post).map (fun r => r.doc.id)).Nodup := by
          rw [← hst]
          exact hids
        simp only [List.map_append, List.map_cons, List.nodup_append] at hnodup'
        obtain ⟨hpre, hcons, hdisj⟩ := hnodup'
        have hnoid : ∀ x ∈ rest, ¬ x.doc.id = id := by
          intro x hx hxid
          rw [hst'] at hx
          rcases List.mem_append.mp hx with hx | hx
          · exact hdisj (List.mem_map.mpr ⟨x, hx, hxid.trans hid.symm⟩)
              (List.mem_cons_self _ _)
          · have := (List.nodup_cons.mp hcons).1
            exact this (List.mem_map.mpr ⟨x, hx, hxid.trans hid.symm⟩)
        refine ⟨hid, hemail, ?_, ?_⟩
        · rw [List.countP_eq_zero]
          intro x hx hxmatch
          exact hnoid x hx ((sameCartIdentity_iff id userEmail x).mp hxmatch).1
        · intro r hr
          exact hnoid r ((mem_getUserCart rest userEmail r).mp hr).1

/-- Witness for C6: deleting `a1` from a one-item store gives identical
results for a throwing and a succeeding cleanup oracle, and the listed
cart no longer contains the item. -/
theorem claim_C6_witness :
    ((deleteCartHandler [{ doc := samplePayload, createdAt := 0 }] "a1" "a@b.c"
        (fun _ => .error "boom")).1 =
     (deleteCartHandler [{ doc := samplePayload, createdAt := 0 }] "a1" "a@b.c"
        (fun _ => .ok true)).1 ∧
     (deleteCartHandler [{ doc := samplePayload, createdAt := 0 }] "a1" "a@b.c"
        (fun _ => .error "boom")).2.1 =
     (deleteCartHandler [{ doc := samplePayload, createdAt := 0 }] "a1" "a@b.c"
        (fun _ => .ok true)).2.1) ∧
    (({ doc := samplePayload, createdAt := 0 } : CartRecord).doc.id = "a1" ∧
     ({ doc := samplePayload, createdAt := 0 } : CartRecord).doc.userEmail = "a@b.c" ∧
     ([] : CartStore).countP (sameCartIdentity "a1" "a@b.c") = 0 ∧
     ∀ r ∈ getUserCart ([] : CartStore) "a@b.c", ¬ r.doc.id = "a1") :=
  ⟨(claim_C6 [{ doc := samplePayload, createdAt := 0 }] "a1" "a@b.c" (by simp)
      (fun _ => .error "boom") (fun _ => .ok true)).1,
   (claim_C6 [{ doc := samplePayload, createdAt := 0 }] "a1" "a@b.c" (by simp)
      (fun _ => .error "boom") (fun _ => .ok true)).2
     { doc := samplePayload, createdAt := 0 } [] (some "boom") (by rfl)⟩

/-- C9: the store-level `unique: true` index on the external `id` is a
global invariant — `POST /api/cart` preserves distinctness of `id` across
the whole collection, over all owners — and a second owner reusing
another owner's `id` falls through the per-owner lookup into `create`,
which the storage layer rejects (500) leaving the store unchanged. -/
theorem claim_C9 :
    (∀ (st : CartStore) (body : CartPayload) (now : Nat),
      (st.map (fun r => r.doc.id)).Nodup →
      (((postCartHandler st body now).2).map (fun r => r.doc.id)).Nodup) ∧
    (∀ (st : CartStore) (body : CartPayload) (now : Nat) (r : CartRecord),
      (st.map (fun r => r.doc.id)).Nodup →
      r ∈ st → r.doc.id = body.id → r.doc.userEmail ≠ body.userEmail →
      (postCartHandler st body now).2 = st ∧
      ((postCartHandler st body now).1 = .serverError ∨
       ∃ msg, (postCartHandler st body now).1 = .badRequest msg)) := by
  constructor
  · intro st body now hids
    rcases hsan : sanitizeCartPayload body false with msg | p'
    · simpa [postCartHandler, hsan] using hids
    · rcases hfind : st.find? (sameCartIdentity p'.id p'.userEmail) with _ | r₀
      · rcases hadd : addToCart st p' now with e | rs
        · simpa [postCartHandler, hsan, hfind, hadd] using hids
        · obtain ⟨r, st₂⟩ := rs
          obtain ⟨hr, hst, hval, hnone⟩ := addToCart_ok st p' now r st₂ hadd
          simp only [postCartHandler, hsan, hfind, hadd]
          rw [hst]
          simp only [List.map_append, List.map_cons, List.map_nil]
          refine List.Nodup.append hids (by simp) ?_
          intro a ha hb
          rw [List.mem_singleton] at hb
          obtain ⟨x, hx, hxid⟩ := List.mem_map.mp ha
          have := hnone x hx
          rw [hxid, hb] at this
          simp at this
      · rcases hupd : updateCartItem st p'.id p'.userEmail p' with ⟨found, st₂⟩
        rcases found with _ | item
        · obtain ⟨hst2, -⟩ := updateCartItem_none st p'.id p'.userEmail p' st₂ hupd
          simp only [postCartHandler, hsan, hfind, hupd]
          rw [hst2]
          exact hids
        · obtain ⟨hdoc, pre, rr, post, hst, hst', hmatch, -⟩ :=
            updateCartItem_some st p'.id p'.userEmail p' item st₂ hupd
          have hrrid : rr.doc.id = p'.id := ((sameCartIdentity_iff _ _ rr).mp hmatch).1
          simp only [postCartHandler, hsan, hfind, hupd]
          rw [hst']
          have hsame : ((pre ++ { rr with doc := p' } :: post).map (fun r => r.doc.id)) =
              ((pre ++ rr :: post).map (fun r => r.doc.id)) := by
            simp [hrrid]
          rw [hsame, ← hst]
          exact hids
  · intro st body now r hids hr hid howner
    rcases hsan : sanitizeCartPayload body false with msg | p'
    · exact ⟨by simp [postCartHandler, hsan],
        Or.inr ⟨msg, by simp [postCartHandler, hsan]⟩⟩
    · have hp' := sanitizeCartPayload_ok_eq body false p' hsan
      have hpid : p'.id = body.id := by rw [hp']
      have hpemail : p'.userEmail = body.userEmail := by rw [hp']
      have hfind : st.find? (sameCartIdentity p'.id p'.userEmail) = none := by
        rw [List.find?_eq_none]
        intro x hx hmatch
        obtain ⟨hxid, hxemail⟩ := (sameCartIdentity_iff _ _ x).mp hmatch
        have hxr : x = r :=
          List.inj_on_of_nodup_map hids hx hr (by rw [hxid, hpid, ← hid])
        rw [hxr] at hxemail
        exact howner (hxemail.trans hpemail)
      have hadd : ∃ e, addToCart st p' now = .error e := by
        rcases haddr : addToCart st p' now with e | rs
        · exact ⟨e, rfl⟩
        · obtain ⟨r₂, st₂⟩ := rs
          obtain ⟨-, -, -, hnone⟩ := addToCart_ok st p' now r₂ st₂ haddr
          have hfalse := hnone r hr
          rw [show r.doc.id = p'.id from hid.trans hpid.symm] at hfalse
          simp at hfalse
      obtain ⟨e, hadd⟩ := hadd
      exact ⟨by simp [postCartHandler, hsan, hfind, hadd],
        Or.inl (by simp [postCartHandler, hsan, hfind, hadd])⟩

/-- A second owner reusing the external id `a1`, used by the C9 witness. -/
def evilBody : CartPayload :=
  { samplePayload with userEmail := "evil@x.y" }

/-- Witness for C9: on a store holding `a1` for `a@b.c`, a create attempt
by owner `evil@x.y` with id `a1` is rejected and the store is unchanged,
and the handler preserves id-uniqueness at this input. -/
theorem claim_C9_witness :
    ((((postCartHandler [{ doc := samplePayload, createdAt := 0 }] samplePayload 1).2).map
        (fun r => r.doc.id)).Nodup) ∧
    ((postCartHandler [{ doc := samplePayload, createdAt := 0 }] evilBody 1).2 =
        [{ doc := samplePayload, createdAt := 0 }] ∧
     ((postCartHandler [{ doc := samplePayload, createdAt := 0 }] evilBody 1).1 =
        .serverError ∨
      ∃ msg, (postCartHandler [{ doc := samplePayload, createdAt := 0 }] evilBody 1).1 =
        .badRequest msg)) :=
  ⟨claim_C9.1 [{ doc := samplePayload, createdAt := 0 }] samplePayload 1 (by simp),
   claim_C9.2 [{ doc := samplePayload, createdAt := 0 }] evilBody 1
     { doc := samplePayload, createdAt := 0 } (by simp) (by simp) rfl (by decide)⟩

/-- The post-upsert store invariant for a sanitized payload `p'`: ids are
globally distinct, exactly one document matches `(p'.id, p'.userEmail)`,
and every matching document carries exactly the sanitized fields. -/
def upsertInvariant (p' : CartPayload) (st' : CartStore) : Prop :=
  (st'.map (fun r => r.doc.id)).Nodup ∧
  st'.countP (sameCartIdentity p'.id p'.userEmail) = 1 ∧
  ∀ x ∈ st', sameCartIdentity p'.id p'.userEmail x = true → x.doc = p'

lemma updateCartItem_upsert (st : CartStore) (p' : CartPayload)
    (hids : (st.map (fun r => r.doc.id)).Nodup)
    (r₀ : CartRecord)
    (hfind : st.find? (sameCartIdentity p'.id p'.userEmail) = some r₀) :
    ∃ item st',
      updateCartItem st p'.id p'.userEmail p' = (some item, st') ∧
      item.doc = p' ∧ upsertInvariant p' st' := by
  rcases hupd : updateCartItem st p'.id p'.userEmail p' with ⟨found, st₂⟩
  rcases found with _ | item
  · exfalso
    obtain ⟨-, hall⟩ := updateCartItem_none st p'.id p'.userEmail p' st₂ hupd
    have ht := List.find?_some hfind
    have hf := hall r₀ (List.mem_of_find?_eq_some hfind)
    rw [ht] at hf
    exact Bool.noConfusion hf
  · obtain ⟨hdoc, pre, rr, post, hst, hst', hmatch, hpre⟩ :=
      updateCartItem_some st p'.id p'.userEmail p' item st₂ hupd
    have hrrid : rr.doc.id = p'.id := ((sameCartIdentity_iff _ _ rr).mp hmatch).1
    have hnewmatch :
        sameCartIdentity p'.id p'.userEmail ({ rr with doc := p' } : CartRecord) = true := by
      simp [sameCartIdentity]
    have hidseq : (st₂.map (fun r => r.doc.id)) = (st.map (fun r => r.doc.id)) := by
      rw [hst', hst]
      simp [hrrid]
    have hnodup₂ : (st₂.map (fun r => r.doc.id)).Nodup := by
      rw [hidseq]
      exact hids
    have hcount_le := countP_sameCartIdentity_le_one st₂ p'.id p'.userEmail hnodup₂
    have hcount_ge : 1 ≤ st₂.countP (sameCartIdentity p'.id p'.userEmail) := by
      rw [hst']
      simp only [List.countP_append, List.countP_cons, hnewmatch, if_true]
      omega
    have hcount : st₂.countP (sameCartIdentity p'.id p'.userEmail) = 1 :=
      le_antisymm hcount_le hcount_ge
    have hnew_mem : ({ rr with doc := p' } : CartRecord) ∈ st₂ := by
      rw [hst']
      simp
    have hall : ∀ x ∈ st₂, sameCartIdentity p'.id p'.userEmail x = true → x.doc = p' := by
      intro x hx hmx
      have hxeq : x = { rr with doc := p' } :=
        List.inj_on_of_nodup_map hnodup₂ hx hnew_mem
          (((sameCartIdentity_iff _ _ x).mp hmx).1)
      rw [hxeq]
    exact ⟨item, st₂, rfl, hdoc, hnodup₂, hcount, hall⟩

lemma addToCart_create_invariant (st : CartStore) (p' : CartPayload) (now : Nat)
    (hids : (st.map (fun r => r.doc.id)).Nodup)
    (hnone : ∀ x ∈ st, (x.doc.id == p'.id) = false) :
    upsertInvariant p' (st ++ [{ doc := p', createdAt := now }]) := by
  have hnodup : ((st ++ [({ doc := p', createdAt := now } : CartRecord)]).map
      (fun r => r.doc.id)).Nodup := by
    simp only [List.map_append, List.map_cons, List.map_nil]
    refine List.Nodup.append hids (by simp) ?_
    intro a ha hb
    rw [List.mem_singleton] at hb
    obtain ⟨x, hx, hxid⟩ := List.mem_map.mp ha
    have := hnone x hx
    rw [hxid, hb] at this
    simp at this
  have hzero : st.countP (sameCartIdentity p'.id p'.userEmail) = 0 := by
    rw [List.countP_eq_zero]
    intro x hx hmx
    have := hnone x hx
    rw [((sameCartIdentity_iff _ _ x).mp hmx).1] at this
    simp at this
  refine ⟨hnodup, ?_, ?_⟩
  · rw [List.countP_append, hzero]
    simp [List.countP_cons, sameCartIdentity]
  · intro x hx hmx
    rcases List.mem_append.mp hx with hx | hx
    · exfalso
      have := hnone x hx
      rw [((sameCartIdentity_iff _ _ x).mp hmx).1] at this
      simp at this
    · rw [List.mem_singleton] at hx
      rw [hx]

lemma postCart_resubmit (st' : CartStore) (body p' : CartPayload) (now₂ : Nat)
    (hsan : sanitizeCartPayload body false = .ok p')
    (hinv : upsertInvariant p' st') :
    ∃ item₂ st₂,
      postCartHandler st' body now₂ = (.updated (some item₂), st₂) ∧
      item₂.doc = p' ∧ upsertInvariant p' st₂ := by
  obtain ⟨hnodup, hcount, hall⟩ := hinv
  have hex : ∃ x, x ∈ st' ∧ sameCartIdentity p'.id p'.userEmail x = true := by
    by_contra hcon
    have h0 : st'.countP (sameCartIdentity p'.id p'.userEmail) = 0 := by
      rw [List.countP_eq_zero]
      intro a ha hma
      exact hcon ⟨a, ha, hma⟩
    rw [h0] at hcount
    exact one_ne_zero hcount.symm
  have hfind : ∃ r₀, st'.find? (sameCartIdentity p'.id p'.userEmail) = some r₀ := by
    obtain ⟨x, hx, hmx⟩ := hex
    rcases hfq : st'.find? (sameCartIdentity p'.id p'.userEmail) with _ | r₀
    · rw [List.find?_eq_none] at hfq
      exact absurd hmx (by simpa using hfq x hx)
    · exact ⟨r₀, rfl⟩
  obtain ⟨r₀, hfind⟩ := hfind
  obtain ⟨item₂, st₂, hupd, hdoc, hinv₂⟩ := updateCartItem_upsert st' p' hnodup r₀ hfind
  refine ⟨item₂, st₂, ?_, hdoc, hinv₂⟩
  simp only [postCartHandler, hsan, hfind, hupd]

lemma getUserCart_upsert (p' : CartPayload) (st' : CartStore)
    (hinv : upsertInvariant p' st') :
    (getUserCart st' p'.userEmail).countP (fun r => r.doc.id == p'.id) = 1 ∧
    ∀ r ∈ getUserCart st' p'.userEmail, (r.doc.id == p'.id) = true → r.doc = p' := by
  obtain ⟨hnodup, hcount, hall⟩ := hinv
  constructor
  · rw [getUserCart_countP, List.countP_filter]
    simpa [sameCartIdentity] using hcount
  · intro r hr hid
    obtain ⟨hrmem, hremail⟩ := (mem_getUserCart st' p'.userEmail r).mp hr
    exact hall r hrmem (by simp [sameCartIdentity, hremail, beq_iff_eq.mp hid])

/-- C1: every payload accepted by `POST /api/cart` (201 create or 200
overwrite) leaves the store with exactly one CartItem for the sanitized
`(userEmail, id)` pair, whose fields equal the sanitized payload; the
owner's listed cart contains the id exactly once with those fields; and
resubmitting the same body any number of times keeps responding 200
(update) while preserving exactly-one-ness and the fields. -/
theorem claim_C1 (st : CartStore) (body : CartPayload) (now : Nat)
    (item : CartRecord) (st' : CartStore)
    (hids : (st.map (fun r => r.doc.id)).Nodup)
    (hacc : postCartHandler st body now = (.created item, st') ∨
            postCartHandler st body now = (.updated (some item), st')) :
    ∃ p', sanitizeCartPayload body false = .ok p' ∧
      item.doc = p' ∧
      upsertInvariant p' st' ∧
      (getUserCart st' p'.userEmail).countP (fun r => r.doc.id == p'.id) = 1 ∧
      (∀ r ∈ getUserCart st' p'.userEmail, (r.doc.id == p'.id) = true → r.doc = p') ∧
      (∀ now₂, ∃ item₂ st₂,
        postCartHandler st' body now₂ = (.updated (some item₂), st₂) ∧
        item₂.doc = p' ∧ upsertInvariant p' st₂) := by
  have key : ∃ p', sanitizeCartPayload body false = .ok p' ∧
      item.doc = p' ∧ upsertInvariant p' st' := by
    rcases hacc with h | h
    · obtain ⟨p', hsan, -, hitem, hst, -, hnone⟩ :=
        postCartHandler_created st body now item st' h
      refine ⟨p', hsan, by rw [hitem], ?_⟩
      rw [hst]
      exact addToCart_create_invariant st p' now hids hnone
    · obtain ⟨p', hsan, ⟨r₀, hfind⟩, hupd⟩ :=
        postCartHandler_updated st body now item st' h
      obtain ⟨item₂, st₂, hupd₂, hdoc₂, hinv₂⟩ :=
        updateCartItem_upsert st p' hids r₀ hfind
      rw [hupd] at hupd₂
      have h1 : item = item₂ := Option.some.inj (congrArg Prod.fst hupd₂)
      have h2 : st' = st₂ := congrArg Prod.snd hupd₂
      exact ⟨p', hsan, h1 ▸ hdoc₂, h2 ▸ hinv₂⟩
  obtain ⟨p', hsan, hdoc, hinv⟩ := key
  obtain ⟨hlist1, hlist2⟩ := getUserCart_upsert p' st' hinv
  exact ⟨p', hsan, hdoc, hinv, hlist1, hlist2,
    fun now₂ => postCart_resubmit st' body p' now₂ hsan hinv⟩

/-- Witness for C1: adding `samplePayload` to the empty store leaves the
listed cart with exactly one item of id `a1`. -/
theorem claim_C1_witness :
    (getUserCart [{ doc := samplePayload, createdAt := 0 }] "a@b.c").countP
      (fun r => r.doc.id == "a1") = 1 := by
  obtain ⟨p', hsan, hdoc, hinv, hlist1, -, -⟩ :=
    claim_C1 [] samplePayload 0 { doc := samplePayload, createdAt := 0 }
      [{ doc := samplePayload, createdAt := 0 }] (by simp) (Or.inl (by rfl))
  have hp : p' = samplePayload := sanitizeCartPayload_ok_eq samplePayload false p' hsan
  rw [hp] at hlist1
  exact hlist1

/-- Witness for C8: with the service enabled and configured, a successful
send yields `success: true` and a rejected send yields `success: false`. -/
theorem claim_C8_witness :
    ((sendOrderConfirmationEmail
        { enabled := true, apiKey := "k", senderEmail := "s", senderName := "n"
          adminEmail := "a" }
        (some "tpl") (.ok "mid") sampleOrder).success = true) ∧
    ((sendOrderConfirmationEmail
        { enabled := true, apiKey := "k", senderEmail := "s", senderName := "n"
          adminEmail := "a" }
        (some "tpl") (.error "boom") sampleOrder).success = false) := by
  constructor
  · exact (claim_C8.1
      { enabled := true, apiKey := "k", senderEmail := "s", senderName := "n"
        adminEmail := "a" }
      (some "tpl") (.ok "mid") sampleOrder).mpr ⟨rfl, by decide, rfl, "mid", rfl⟩
  · rcases hs : (sendOrderConfirmationEmail
        { enabled := true, apiKey := "k", senderEmail := "s", senderName := "n"
          adminEmail := "a" }
        (some "tpl") (.error "boom") sampleOrder).success
    · rfl
    · exfalso
      obtain ⟨-, -, -, m, hm⟩ := (claim_C8.1
        { enabled := true, apiKey := "k", senderEmail := "s", senderName := "n"
          adminEmail := "a" }
        (some "tpl") (.error "boom") sampleOrder).mp hs
      exact Except.noConfusion hm
